import Mathlib

/-!
Shallow embedding of the claude-spend usage-event attribution core
(pricing.ts, parser.ts) and proofs about it.

Conventions of the embedding:
* JS `number` dollar amounts and rates are modelled as `ℚ` (exact rational
  arithmetic in place of IEEE doubles; all spec quantities are decimal).
* Token counts are modelled as `ℕ` (the data model declares them as
  non-negative integers).
* Optional JSON fields are `Option _`; the JS `x || d` fallback (which also
  replaces the empty string / zero) and `x ?? d` are modelled explicitly.
* JS `String.prototype.includes` / `startsWith` / `toLowerCase` are modelled
  over character lists.
-/

namespace ClaudeSpend

/-- JS `s.toLowerCase()` (ASCII-relevant part), written over the character
list so that it evaluates by kernel reduction. -/
def strToLower (s : String) : String := ⟨s.toList.map Char.toLower⟩

/-- JS `s.includes(pat)`: `pat` occurs as a contiguous substring of `s`. -/
def strIncludes (s pat : String) : Bool := decide (pat.toList <:+: s.toList)

/-- JS `s.startsWith(pre)`. -/
def strStartsWith (s pre : String) : Bool := pre.toList.isPrefixOf s.toList

/-- JS `v || d` for an optional string `v`: `undefined` and `""` fall back. -/
def jsOrString (v : Option String) (d : String) : String :=
  match v with
  | some s => if s = "" then d else s
  | none => d

/-- JS truthiness of an optional string (`undefined` and `""` are falsy). -/
def jsTruthy (v : Option String) : Bool :=
  match v with
  | some s => s ≠ ""
  | none => false

/-- JS `v || null` on a `string | null | undefined` value: `""` becomes null. -/
def jsStrOrNull (v : Option String) : Option String :=
  match v with
  | some s => if s = "" then none else some s
  | none => none

-- pricing.ts ----------------------------------------------------------------

/-- `type BillingContext = 'api' | 'pro' | 'max_5x' | 'max_20x'` -/
inductive BillingContext where
  | api
  | pro
  | max_5x
  | max_20x
  deriving DecidableEq

/-- Per-million-token rates (`interface ModelRates`). -/
structure ModelRates where
  input : ℚ
  output : ℚ
  cacheWrite : ℚ
  cacheRead : ℚ
  deriving DecidableEq

/-- `PRICING.opus`: input 15, output 75, cacheWrite 18.75, cacheRead 1.50. -/
def opusRates : ModelRates := ⟨15, 75, 75/4, 3/2⟩

/-- `PRICING.sonnet`: input 3, output 15, cacheWrite 3.75, cacheRead 0.30. -/
def sonnetRates : ModelRates := ⟨3, 15, 15/4, 3/10⟩

/-- `PRICING.haiku`: input 1, output 5, cacheWrite 1.25, cacheRead 0.10. -/
def haikuRates : ModelRates := ⟨1, 5, 5/4, 1/10⟩

/-- The `PRICING` record, as a lookup on its three keys.  `resolveModelFamily`
only ever produces one of the three keys, so the final branch is unreachable
from `getRates`. -/
def PRICING (family : String) : ModelRates :=
  if family = "opus" then opusRates
  else if family = "sonnet" then sonnetRates
  else if family = "haiku" then haikuRates
  else sonnetRates

/-- `resolveModelFamily` (pricing.ts): case-insensitive substring match on the
family name, defaulting to `"sonnet"`. -/
def resolveModelFamily (model : String) : String :=
  let lower := strToLower model
  if strIncludes lower "opus" then "opus"
  else if strIncludes lower "sonnet" then "sonnet"
  else if strIncludes lower "haiku" then "haiku"
  else "sonnet"

/-- `getRates` (pricing.ts). -/
def getRates (model : String) : ModelRates :=
  PRICING (resolveModelFamily model)

/-- `isSubscription` (pricing.ts): `ctx !== 'api'`. -/
def isSubscription : BillingContext → Bool
  | .api => false
  | _ => true

/-- `interface TokenUsage` (pricing.ts). -/
structure TokenUsage where
  inputTokens : ℕ
  outputTokens : ℕ
  cacheCreationTokens : ℕ
  cacheReadTokens : ℕ
  deriving DecidableEq

/-- `interface CostBreakdown` (pricing.ts). -/
structure CostBreakdown where
  inputCost : ℚ
  outputCost : ℚ
  cacheWriteCost : ℚ
  cacheReadCost : ℚ
  totalCost : ℚ
  cacheSavings : ℚ
  isEquivalent : Bool
  deriving DecidableEq

/-- `calculateCost` (pricing.ts). -/
def calculateCost (model : String) (usage : TokenUsage)
    (billingContext : BillingContext) : CostBreakdown :=
  let rates := getRates model
  let M : ℚ := 1000000
  let inputCost := ((usage.inputTokens : ℚ) / M) * rates.input
  let outputCost := ((usage.outputTokens : ℚ) / M) * rates.output
  let cacheWriteCost := ((usage.cacheCreationTokens : ℚ) / M) * rates.cacheWrite
  let cacheReadCost := ((usage.cacheReadTokens : ℚ) / M) * rates.cacheRead
  let cacheSavings := ((usage.cacheReadTokens : ℚ) / M) * rates.input - cacheReadCost
  { inputCost := inputCost
    outputCost := outputCost
    cacheWriteCost := cacheWriteCost
    cacheReadCost := cacheReadCost
    totalCost := inputCost + outputCost + cacheWriteCost + cacheReadCost
    cacheSavings := cacheSavings
    isEquivalent := isSubscription billingContext }

-- detectBillingContext (pricing.ts) ------------------------------------------

/-- The `claudeAiOauth` object of `~/.claude/.credentials.json`. -/
structure OAuthCreds where
  subscriptionType : Option String
  rateLimitTier : Option String
  deriving DecidableEq

/-- Observable states of the credentials file: absent, unparsable JSON
(`JSON.parse` throws, caught and ignored), or parsed with an optional
`claudeAiOauth` member. -/
inductive CredFile where
  | missing
  | malformed
  | parsed (oauth : Option OAuthCreds)
  deriving DecidableEq

/-- The environment/filesystem state read by `detectBillingContext`. -/
structure Env where
  /-- `process.env.CLAUDE_SPEND_BILLING` -/
  override : Option String
  /-- `process.env.ANTHROPIC_API_KEY` -/
  apiKey : Option String
  /-- `~/.claude/.credentials.json` -/
  credentials : CredFile
  deriving DecidableEq

/-- `override && ['api','pro','max_5x','max_20x'].includes(override)`,
followed by the cast back to `BillingContext`. -/
def parseBillingContext (o : String) : Option BillingContext :=
  if o = "api" then some .api
  else if o = "pro" then some .pro
  else if o = "max_5x" then some .max_5x
  else if o = "max_20x" then some .max_20x
  else none

/-- The credential-marker branch of `detectBillingContext` (pricing.ts lines
with `sub`/`tier`): falls through to `'api'` when no marker matches. -/
def resolveCredTier (oauth : OAuthCreds) : BillingContext :=
  let sub := oauth.subscriptionType
  let tier := jsOrString oauth.rateLimitTier ""
  if sub = some "max" ∨ strIncludes tier "max_20x" then .max_20x
  else if sub = some "max" ∨ strIncludes tier "max_5x" then .max_5x
  else if sub = some "pro" ∨ strIncludes tier "pro" then .pro
  else .api

/-- `detectBillingContext` (pricing.ts): override, then API key env var, then
credential markers, then the `'api'` default.  A missing or malformed
credentials file (the `catch` branch) falls through to the default. -/
def detectBillingContext (env : Env) : BillingContext :=
  match env.override.bind parseBillingContext with
  | some ctx => ctx
  | none =>
    if jsTruthy env.apiKey then .api
    else
      match env.credentials with
      | .parsed (some oauth) => resolveCredTier oauth
      | _ => .api

-- parser.ts: raw journal entry model (types.ts) --------------------------------

/-- `interface ContentBlock` (types.ts). -/
structure ContentBlock where
  type : String
  text : Option String
  name : Option String
  deriving DecidableEq

/-- `interface MessageUsage` (types.ts); all fields optional. -/
structure MessageUsage where
  input_tokens : Option ℕ
  output_tokens : Option ℕ
  cache_creation_input_tokens : Option ℕ
  cache_read_input_tokens : Option ℕ
  deriving DecidableEq

/-- The `content?: string | ContentBlock[]` union of a journal message. -/
inductive JsContent where
  | str (s : String)
  | blocks (bs : List ContentBlock)
  deriving DecidableEq

/-- The `message` member of a journal entry (types.ts). -/
structure JournalMessage where
  role : Option String
  content : Option JsContent
  usage : Option MessageUsage
  model : Option String
  deriving DecidableEq

/-- `interface JournalEntry` (types.ts). -/
structure JournalEntry where
  type : String
  timestamp : Option String
  isMeta : Option Bool
  message : Option JournalMessage
  deriving DecidableEq

/-- `interface Query` (types.ts). -/
structure Query where
  userPrompt : Option String
  userTimestamp : Option String
  assistantTimestamp : Option String
  model : String
  inputTokens : ℕ
  outputTokens : ℕ
  cacheCreationTokens : ℕ
  cacheReadTokens : ℕ
  totalTokens : ℕ
  costUSD : ℚ
  cacheSavings : ℚ
  cumulativeCost : ℚ
  tools : List String
  deriving DecidableEq

-- parser.ts: extractSessionData -------------------------------------------------

/-- The mutable loop state of `extractSessionData`:
`pendingUserMessage` (text, timestamp), `cumulativeCost`, and the `queries`
accumulated so far. -/
structure ExtractState where
  queries : List Query
  pendingText : Option (Option String)
  pendingTimestamp : Option (Option String)
  cumulativeCost : ℚ
  deriving DecidableEq

/-- Initial loop state of `extractSessionData`
(`pendingUserMessage = null`, `cumulativeCost = 0`). -/
def initialExtractState : ExtractState := ⟨[], none, none, 0⟩

/-- The `entry.type === 'user'` branch of `extractSessionData`'s loop body.
Meta entries and `<local-command`/`<command-name` control directives are
skipped; otherwise the pending prompt is overwritten (`textContent || null`).
NOTE: on a user entry whose `message.content` is absent the source throws
(`(undefined).filter`); such entries are outside the model's domain and are
treated as a no-op here — no claim concerns them. -/
def userUpdate (st : ExtractState) (e : JournalEntry) : ExtractState :=
  match e.message with
  | none => st
  | some msg =>
    if msg.role = some "user" then
      if e.isMeta.getD false then st
      else
        match msg.content with
        | none => st
        | some (.str s) =>
          if strStartsWith s "<local-command" || strStartsWith s "<command-name" then st
          else
            { st with pendingText := some (jsStrOrNull (some s)),
                      pendingTimestamp := some e.timestamp }
        | some (.blocks bs) =>
          let textContent :=
            (String.intercalate "\n"
              ((bs.filter (fun b => b.type = "text")).map (fun b => b.text.getD ""))).trim
          { st with pendingText := some (jsStrOrNull (some textContent)),
                    pendingTimestamp := some e.timestamp }
    else st

/-- The tool-name collection of the assistant branch:
`block.type === 'tool_use' && block.name` (truthy). -/
def collectTools (content : Option JsContent) : List String :=
  match content with
  | some (.blocks bs) =>
    bs.filterMap (fun b =>
      match b.name with
      | some n => if b.type = "tool_use" ∧ n ≠ "" then some n else none
      | none => none)
  | _ => []

/-- The `entry.type === 'assistant'` branch of `extractSessionData`'s loop
body: skips entries without usage and `<synthetic>` models, otherwise prices
the usage, advances the cumulative cost and emits a `Query`. -/
def assistantUpdate (ctx : BillingContext) (st : ExtractState) (e : JournalEntry) :
    ExtractState :=
  match e.message with
  | none => st
  | some msg =>
    match msg.usage with
    | none => st
    | some usage =>
      let model := jsOrString msg.model "unknown"
      if model = "<synthetic>" then st
      else
        let rawInput := usage.input_tokens.getD 0
        let cacheCreation := usage.cache_creation_input_tokens.getD 0
        let cacheRead := usage.cache_read_input_tokens.getD 0
        let outputTokens := usage.output_tokens.getD 0
        let inputTokens := rawInput + cacheCreation + cacheRead
        let tools := collectTools msg.content
        let cost := calculateCost model ⟨rawInput, outputTokens, cacheCreation, cacheRead⟩ ctx
        let cum := st.cumulativeCost + cost.totalCost
        { st with
          cumulativeCost := cum
          queries := st.queries ++
            [{ userPrompt := jsStrOrNull (st.pendingText.getD none)
               userTimestamp := st.pendingTimestamp.getD none
               assistantTimestamp := e.timestamp
               model := model
               inputTokens := inputTokens
               outputTokens := outputTokens
               cacheCreationTokens := cacheCreation
               cacheReadTokens := cacheRead
               totalTokens := inputTokens + outputTokens
               costUSD := cost.totalCost
               cacheSavings := cost.cacheSavings
               cumulativeCost := cum
               tools := tools }] }

/-- One iteration of `extractSessionData`'s loop: the entry hits the user
branch, the assistant branch, or neither (the two `if`s of the source are
sequential, but an entry satisfies at most one of the `type` guards). -/
def extractStep (ctx : BillingContext) (st : ExtractState) (e : JournalEntry) :
    ExtractState :=
  let st1 := if e.type = "user" then userUpdate st e else st
  if e.type = "assistant" then assistantUpdate ctx st1 e else st1

/-- `extractSessionData` (parser.ts): fold the loop body over the entries and
return the emitted queries. -/
def extractSessionData (entries : List JournalEntry) (ctx : BillingContext) :
    List Query :=
  (entries.foldl (extractStep ctx) initialExtractState).queries

-- parser.ts: parseAllSessions (per-file session construction) ------------------

/-- `interface CostCurvePoint` (types.ts). -/
structure CostCurvePoint where
  messageIndex : ℕ
  timestamp : String
  cumulativeCost : ℚ
  deriving DecidableEq

/-- `interface Session` (types.ts), restricted to the fields the aggregation
and insight logic computes with.  The display-only fields (`date`,
`timestamp`, `firstPrompt`, primary `model`) feed only rendered strings and
are omitted from the embedding. -/
structure Session where
  sessionId : String
  project : String
  queryCount : ℕ
  queries : List Query
  inputTokens : ℕ
  outputTokens : ℕ
  totalTokens : ℕ
  costUSD : ℚ
  cacheSavings : ℚ
  cacheEfficiency : ℚ
  costCurve : List CostCurvePoint
  subagentCost : ℚ
  subagentQueries : List Query
  deriving DecidableEq

/-- JS truthiness of the `timestamp` field used by the cost-curve filter and
`entries.find(e => e.timestamp)` (absent and `""` are falsy). -/
def tsTruthy (t : Option String) : Bool :=
  match t with
  | some s => s ≠ ""
  | none => false

/-- The cost-curve construction of `parseAllSessions`: one point per query
with a truthy `assistantTimestamp`, indexed by position in the filtered
list. -/
def buildCostCurve (queries : List Query) : List CostCurvePoint :=
  ((queries.filter (fun q => tsTruthy q.assistantTimestamp)).enum).map
    (fun p => { messageIndex := p.1
                timestamp := p.2.assistantTimestamp.getD ""
                cumulativeCost := p.2.cumulativeCost })

/-- The per-session accumulator loops of `parseAllSessions`
(`for (const q of queries) { inputTokens += ...; ... }`), written as one
fold per accumulated field. -/
def sumWith (f : Query → ℚ) (qs : List Query) : ℚ :=
  qs.foldl (fun acc q => acc + f q) 0

/-- Natural-number accumulator variant of `sumWith`. -/
def sumWithNat (f : Query → ℕ) (qs : List Query) : ℕ :=
  qs.foldl (fun acc q => acc + f q) 0

/-- The per-session body of `parseAllSessions`'s file loop (parser.ts):
skips empty entry lists and sessions with no queries, extracts the subagent
queries, folds the token/cost accumulators and builds the `Session`. -/
def buildSession (project sessionId : String) (entries : List JournalEntry)
    (subEntryLists : List (List JournalEntry)) (ctx : BillingContext) :
    Option Session :=
  if entries = [] then none
  else
    let queries := extractSessionData entries ctx
    if queries = [] then none
    else
      let subagentQueries := (subEntryLists.map (fun es => extractSessionData es ctx)).flatten
      let inputTokens := sumWithNat (fun q => q.inputTokens) queries
      let outputTokens := sumWithNat (fun q => q.outputTokens) queries
      let ownCost := sumWith (fun q => q.costUSD) queries
      let ownSavings := sumWith (fun q => q.cacheSavings) queries
      let totalCacheRead := sumWithNat (fun q => q.cacheReadTokens) queries
      let totalInputAll := sumWithNat (fun q => q.inputTokens) queries
      let subagentCost := sumWith (fun q => q.costUSD) subagentQueries
      let costUSD := ownCost + subagentCost
      let cacheSavings := ownSavings + sumWith (fun q => q.cacheSavings) subagentQueries
      let totalTokens := inputTokens + outputTokens
      let cacheEfficiency : ℚ :=
        if 0 < totalInputAll then (totalCacheRead : ℚ) / (totalInputAll : ℚ) else 0
      some
        { sessionId := sessionId
          project := project
          queryCount := queries.length
          queries := queries
          inputTokens := inputTokens
          outputTokens := outputTokens
          totalTokens := totalTokens
          costUSD := costUSD
          cacheSavings := cacheSavings
          cacheEfficiency := cacheEfficiency
          costCurve := buildCostCurve queries
          subagentCost := subagentCost
          subagentQueries := subagentQueries }

/-- One session file together with its nested subagent files, as delivered by
the file-enumeration layer. -/
structure SessionInput where
  project : String
  sessionId : String
  entries : List JournalEntry
  subEntryLists : List (List JournalEntry)
  deriving DecidableEq

/-- The file loop of `parseAllSessions`: build a `Session` per file, dropping
files that yield none. -/
def buildBatch (inputs : List SessionInput) (ctx : BillingContext) : List Session :=
  inputs.filterMap (fun i => buildSession i.project i.sessionId i.entries i.subEntryLists ctx)

-- parser.ts: model breakdown and grand totals ----------------------------------

/-- `interface ModelBreakdown` (types.ts). -/
structure ModelBreakdown where
  model : String
  inputTokens : ℕ
  outputTokens : ℕ
  totalTokens : ℕ
  costUSD : ℚ
  queryCount : ℕ
  deriving DecidableEq

/-- A fresh `modelMap[q.model]` record. -/
def emptyBreakdown (model : String) : ModelBreakdown :=
  { model := model, inputTokens := 0, outputTokens := 0, totalTokens := 0,
    costUSD := 0, queryCount := 0 }

/-- The `modelMap[q.model].x += q.x` accumulation (parser.ts). -/
def addQueryToBreakdown (mb : ModelBreakdown) (q : Query) : ModelBreakdown :=
  { mb with
    inputTokens := mb.inputTokens + q.inputTokens
    outputTokens := mb.outputTokens + q.outputTokens
    totalTokens := mb.totalTokens + q.totalTokens
    costUSD := mb.costUSD + q.costUSD
    queryCount := mb.queryCount + 1 }

/-- `modelMap` as an insertion-ordered association list (JS object string keys
keep insertion order): bump the existing entry for the model or append a new
one. -/
def insertQuery (m : List (String × ModelBreakdown)) (q : Query) :
    List (String × ModelBreakdown) :=
  match m with
  | [] => [(q.model, addQueryToBreakdown (emptyBreakdown q.model) q)]
  | (k, mb) :: rest =>
    if k = q.model then (k, addQueryToBreakdown mb q) :: rest
    else (k, mb) :: insertQuery rest q

/-- The model fold of `parseAllSessions`'s file loop: synthetic and unknown
models are excluded. -/
def updateModelMap (m : List (String × ModelBreakdown)) (q : Query) :
    List (String × ModelBreakdown) :=
  if q.model = "<synthetic>" ∨ q.model = "unknown" then m else insertQuery m q

/-- The run-wide `modelMap`, folded over every session's own queries in file
order. -/
def modelMapOf (sessions : List Session) : List (String × ModelBreakdown) :=
  sessions.foldl (fun m s => s.queries.foldl updateModelMap m) []

/-- `modelBreakdown: Object.values(modelMap)` (parser.ts). -/
def modelBreakdownOf (sessions : List Session) : List ModelBreakdown :=
  (modelMapOf sessions).map (fun p => p.2)

/-- `grandTotals.totalCostUSD` (parser.ts): `sessions.reduce((sum, s) => sum + s.costUSD, 0)`. -/
def grandTotalCostUSD (sessions : List Session) : ℚ :=
  sessions.foldl (fun acc s => acc + s.costUSD) 0

/-- `grandTotals.totalTokens` (parser.ts). -/
def grandTotalTokens (sessions : List Session) : ℕ :=
  sessions.foldl (fun acc s => acc + s.totalTokens) 0

-- parser.ts: generateInsights, context-growth detector --------------------------

/-- The early-window per-turn average of the context-growth detector:
`s.queries.slice(0, 5).reduce(...) / Math.min(5, s.queries.length)`. -/
def earlyWindowAvg (s : Session) : ℚ :=
  ((s.queries.take 5).map (fun q => q.costUSD)).sum / ((min 5 s.queries.length : ℕ) : ℚ)

/-- The late-window per-turn average of the context-growth detector:
`s.queries.slice(-5).reduce(...) / Math.min(5, s.queries.length)`. -/
def lateWindowAvg (s : Session) : ℚ :=
  ((s.queries.drop (s.queries.length - 5)).map (fun q => q.costUSD)).sum /
    ((min 5 s.queries.length : ℕ) : ℚ)

/-- `ratio: last5 / Math.max(first5, 0.0001)` (parser.ts). -/
def growthRatio (s : Session) : ℚ :=
  lateWindowAvg s / max (earlyWindowAvg s) (1/10000)

/-- The condition under which `generateInsights` pushes the
`'context-growth'` insight: some session with more than 50 queries has
`growthRatio > 2`.  (The pushed title/description strings are display-only
and not modelled.) -/
def contextGrowthEmitted (sessions : List Session) : Bool :=
  !((sessions.filter (fun s => 50 < s.queries.length)).filter
      (fun s => decide (2 < growthRatio s))).isEmpty

-- Specification-side measures and concrete scenario data -----------------------

/-- Sum of `costUSD` over a list of model-breakdown rows. -/
def breakdownCostSum (mbs : List ModelBreakdown) : ℚ :=
  (mbs.map (fun mb => mb.costUSD)).sum

/-- Sum of `totalTokens` over a list of model-breakdown rows. -/
def breakdownTokenSum (mbs : List ModelBreakdown) : ℕ :=
  (mbs.map (fun mb => mb.totalTokens)).sum

/-- Running cumulative sums of a cost list, starting from `a`: the value after
each element. -/
def runningSums (a : ℚ) : List ℚ → List ℚ
  | [] => []
  | c :: cs => (a + c) :: runningSums (a + c) cs

/-- Loop invariant of `extractSessionData`: the cumulative cost equals the sum
of the emitted queries' costs, each query's `cumulativeCost` is the running
sum up to it, and every emitted query has a non-negative cost, a non-synthetic
model and `totalTokens = inputTokens + outputTokens`. -/
def ExtractInv (st : ExtractState) : Prop :=
  st.cumulativeCost = (st.queries.map (fun q => q.costUSD)).sum
  ∧ st.queries.map (fun q => q.cumulativeCost)
      = runningSums 0 (st.queries.map (fun q => q.costUSD))
  ∧ ∀ q ∈ st.queries, 0 ≤ q.costUSD ∧ q.model ≠ "<synthetic>"
      ∧ q.totalTokens = q.inputTokens + q.outputTokens

/-- A user journal entry with plain string content. -/
def mkUserEntry (text : String) (ts : Option String) : JournalEntry :=
  { type := "user", timestamp := ts, isMeta := none,
    message := some { role := some "user", content := some (.str text),
                      usage := none, model := none } }

/-- An assistant journal entry carrying usage data. -/
def mkAssistantEntry (model : String) (u : MessageUsage) (ts : Option String) :
    JournalEntry :=
  { type := "assistant", timestamp := ts, isMeta := none,
    message := some { role := some "assistant", content := none,
                      usage := some u, model := some model } }

/-- The `TokenUsage` an assistant entry's `MessageUsage` is priced at
(`usage.x || 0` on each field). -/
def usageOf (u : MessageUsage) : TokenUsage :=
  ⟨u.input_tokens.getD 0, u.output_tokens.getD 0,
   u.cache_creation_input_tokens.getD 0, u.cache_read_input_tokens.getD 0⟩

/-- A usage record of 1000 output tokens. -/
def usageW : MessageUsage := ⟨none, some 1000, none, none⟩

/-- A timestamped assistant entry: 1000 output tokens on a sonnet model,
costing 1000/1e6 × 15 = 0.015 per-token dollars. -/
def entryTsA : JournalEntry :=
  mkAssistantEntry "claude-sonnet-4" ⟨none, some 1000, none, none⟩
    (some "2024-01-01T00:00:00Z")

/-- The same assistant entry with no timestamp. -/
def entryNoTs : JournalEntry :=
  mkAssistantEntry "claude-sonnet-4" ⟨none, some 1000, none, none⟩ none

/-- The first query `extractSessionData` yields from
`[entryTsA, entryNoTs]`: 1000 output tokens at the sonnet output rate cost
1000/1e6 × 15 = 0.015 = 3/200. -/
def queryCEx1 : Query :=
  { userPrompt := none, userTimestamp := none,
    assistantTimestamp := some "2024-01-01T00:00:00Z", model := "claude-sonnet-4",
    inputTokens := 0, outputTokens := 1000, cacheCreationTokens := 0,
    cacheReadTokens := 0, totalTokens := 1000, costUSD := 3/200, cacheSavings := 0,
    cumulativeCost := 3/200, tools := [] }

/-- The second query from `[entryTsA, entryNoTs]`: no timestamp, cumulative
cost 0.03 = 3/100. -/
def queryCEx2 : Query :=
  { userPrompt := none, userTimestamp := none,
    assistantTimestamp := none, model := "claude-sonnet-4",
    inputTokens := 0, outputTokens := 1000, cacheCreationTokens := 0,
    cacheReadTokens := 0, totalTokens := 1000, costUSD := 3/200, cacheSavings := 0,
    cumulativeCost := 3/100, tools := [] }

/-- The session `parseAllSessions` builds from `[entryTsA, entryNoTs]`: its
cost curve has a single point (the untimestamped query is filtered out), so
the curve ends at 3/200 while the session's own query costs sum to 3/100. -/
def sessionCEx : Session :=
  { sessionId := "sid", project := "proj", queryCount := 2,
    queries := [queryCEx1, queryCEx2], inputTokens := 0, outputTokens := 2000,
    totalTokens := 2000, costUSD := 3/100, cacheSavings := 0, cacheEfficiency := 0,
    costCurve := [⟨0, "2024-01-01T00:00:00Z", 3/200⟩],
    subagentCost := 0, subagentQueries := [] }

/-- A session file with one subagent file (both one billable entry). -/
def sessionInputSub : SessionInput := ⟨"proj", "sid", [entryTsA], [[entryTsA]]⟩

/-- The session built from `sessionInputSub`: own cost 3/200, subagent cost
3/200, total `costUSD` 3/100. -/
def sessionSubC : Session :=
  { sessionId := "sid", project := "proj", queryCount := 1,
    queries := [queryCEx1], inputTokens := 0, outputTokens := 1000,
    totalTokens := 1000, costUSD := 3/100, cacheSavings := 0, cacheEfficiency := 0,
    costCurve := [⟨0, "2024-01-01T00:00:00Z", 3/200⟩],
    subagentCost := 3/200, subagentQueries := [queryCEx1] }

/-- The session built from `sessionInputPlain`: no subagents, cost 3/200. -/
def sessionPlainC : Session :=
  { sessionId := "sid", project := "proj", queryCount := 1,
    queries := [queryCEx1], inputTokens := 0, outputTokens := 1000,
    totalTokens := 1000, costUSD := 3/200, cacheSavings := 0, cacheEfficiency := 0,
    costCurve := [⟨0, "2024-01-01T00:00:00Z", 3/200⟩],
    subagentCost := 0, subagentQueries := [] }

/-- A session file with no subagent files. -/
def sessionInputPlain : SessionInput := ⟨"proj", "sid", [entryTsA], []⟩

/-- A query carrying only a cost, for exercising the insight detectors. -/
def fillerQuery (c : ℚ) : Query :=
  { userPrompt := none, userTimestamp := none, assistantTimestamp := some "t",
    model := "claude-sonnet-4", inputTokens := 0, outputTokens := 0,
    cacheCreationTokens := 0, cacheReadTokens := 0, totalTokens := 0,
    costUSD := c, cacheSavings := 0, cumulativeCost := 0, tools := [] }

/-- A session holding the given queries, with zeroed roll-up fields (the
context-growth detector reads only the query list). -/
def mkFlatSession (qs : List Query) : Session :=
  { sessionId := "s", project := "p", queryCount := qs.length, queries := qs,
    inputTokens := 0, outputTokens := 0, totalTokens := 0, costUSD := 0,
    cacheSavings := 0, cacheEfficiency := 0, costCurve := [],
    subagentCost := 0, subagentQueries := [] }

/-- Scenario E: 60 turns, early window $0.01/turn, late window $0.05/turn. -/
def growthSession5x : Session :=
  mkFlatSession (List.replicate 55 (fillerQuery (1/100)) ++
    List.replicate 5 (fillerQuery (1/20)))

/-- Scenario E, non-triggering variant: late window $0.015/turn (ratio 1.5). -/
def growthSessionMild : Session :=
  mkFlatSession (List.replicate 55 (fillerQuery (1/100)) ++
    List.replicate 5 (fillerQuery (3/200)))

/-- 51 turns, early window $0/turn, late window $0.00015/turn: the late
average exceeds twice the early average, yet the detector's floored ratio is
only 1.5. -/
def growthSessionTiny : Session :=
  mkFlatSession (List.replicate 46 (fillerQuery 0) ++
    List.replicate 5 (fillerQuery (3/20000)))

/-- An all-zero session, default for `Option.getD`. -/
def defaultSession : Session := mkFlatSession []

/-- The session built from `entryTsA` with one subagent file. -/
def sessionWithSub : Session :=
  (buildSession "proj" "sid" [entryTsA] [[entryTsA]] .api).getD defaultSession

/-- The session built from two fully timestamped assistant entries. -/
def sessionTwoTs : Session :=
  (buildSession "proj" "sid" [entryTsA, entryTsA] [] .api).getD defaultSession

-- -----------------------------------------------------------------------------
-- Helper lemmas
-- -----------------------------------------------------------------------------

theorem getRates_claude_sonnet : getRates "claude-sonnet-4-5" = sonnetRates := rfl

theorem getRates_sonnet_literal : getRates "sonnet" = sonnetRates := rfl

theorem getRates_nonneg (m : String) :
    0 ≤ (getRates m).input ∧ 0 ≤ (getRates m).output ∧
    0 ≤ (getRates m).cacheWrite ∧ 0 ≤ (getRates m).cacheRead := by
  unfold getRates PRICING
  split_ifs <;>
    refine ⟨?_, ?_, ?_, ?_⟩ <;>
    simp [opusRates, sonnetRates, haikuRates] <;> norm_num

theorem calculateCost_totalCost_nonneg (m : String) (u : TokenUsage)
    (ctx : BillingContext) : 0 ≤ (calculateCost m u ctx).totalCost := by
  obtain ⟨h1, h2, h3, h4⟩ := getRates_nonneg m
  simp only [calculateCost]
  have hd : ∀ n : ℕ, 0 ≤ (n : ℚ) / 1000000 := by
    intro n
    positivity
  refine add_nonneg (add_nonneg (add_nonneg ?_ ?_) ?_) ?_ <;>
    exact mul_nonneg (hd _) (by assumption)

-- -----------------------------------------------------------------------------
-- C1
-- -----------------------------------------------------------------------------

/-- C1: `calculateCost` returns exactly the four per-million-token products,
`cacheSavings = cacheReadTokens/1e6 × input rate − cacheReadCost`, and
`totalCost` equal to the sum of the four costs, for every model, usage and
billing context; and in Scenario A (a sonnet-family model, usage
{input 1000, output 500, cacheCreation 2000, cacheRead 100000}, pay-per-token
billing) it returns inputCost = 0.003, outputCost = 0.0075,
cacheWriteCost = 0.0075, cacheReadCost = 0.03, totalCost = 0.048 and
cacheSavings = 0.27. -/
theorem claim_C1 :
    (∀ (model : String) (usage : TokenUsage) (ctx : BillingContext),
      (calculateCost model usage ctx).inputCost
        = ((usage.inputTokens : ℚ) / 1000000) * (getRates model).input
      ∧ (calculateCost model usage ctx).outputCost
        = ((usage.outputTokens : ℚ) / 1000000) * (getRates model).output
      ∧ (calculateCost model usage ctx).cacheWriteCost
        = ((usage.cacheCreationTokens : ℚ) / 1000000) * (getRates model).cacheWrite
      ∧ (calculateCost model usage ctx).cacheReadCost
        = ((usage.cacheReadTokens : ℚ) / 1000000) * (getRates model).cacheRead
      ∧ (calculateCost model usage ctx).cacheSavings
        = ((usage.cacheReadTokens : ℚ) / 1000000) * (getRates model).input
            - (calculateCost model usage ctx).cacheReadCost
      ∧ (calculateCost model usage ctx).totalCost
        = (calculateCost model usage ctx).inputCost
          + (calculateCost model usage ctx).outputCost
          + (calculateCost model usage ctx).cacheWriteCost
          + (calculateCost model usage ctx).cacheReadCost)
    ∧ (calculateCost "claude-sonnet-4-5" ⟨1000, 500, 2000, 100000⟩ .api).inputCost = 3/1000
    ∧ (calculateCost "claude-sonnet-4-5" ⟨1000, 500, 2000, 100000⟩ .api).outputCost = 3/400
    ∧ (calculateCost "claude-sonnet-4-5" ⟨1000, 500, 2000, 100000⟩ .api).cacheWriteCost = 3/400
    ∧ (calculateCost "claude-sonnet-4-5" ⟨1000, 500, 2000, 100000⟩ .api).cacheReadCost = 3/100
    ∧ (calculateCost "claude-sonnet-4-5" ⟨1000, 500, 2000, 100000⟩ .api).totalCost = 6/125
    ∧ (calculateCost "claude-sonnet-4-5" ⟨1000, 500, 2000, 100000⟩ .api).cacheSavings = 27/100 := by
  refine ⟨fun model usage ctx => ⟨rfl, rfl, rfl, rfl, rfl, rfl⟩, ?_, ?_, ?_, ?_, ?_, ?_⟩ <;>
    simp [calculateCost, getRates_claude_sonnet, sonnetRates] <;> norm_num

-- -----------------------------------------------------------------------------
-- C8
-- -----------------------------------------------------------------------------

/-- C8: a model identifier whose lowercased form contains none of the known
family names resolves to the middle rate family ("sonnet"), so its cost
calculation uses the sonnet rates (and, the functions being total, no error
is raised). -/
theorem claim_C8 (model : String)
    (hOpus : strIncludes (strToLower model) "opus" = false)
    (hSonnet : strIncludes (strToLower model) "sonnet" = false)
    (hHaiku : strIncludes (strToLower model) "haiku" = false) :
    resolveModelFamily model = "sonnet"
    ∧ getRates model = sonnetRates
    ∧ ∀ (usage : TokenUsage) (ctx : BillingContext),
        calculateCost model usage ctx = calculateCost "sonnet" usage ctx := by
  have hfam : resolveModelFamily model = "sonnet" := by
    simp [resolveModelFamily, hOpus, hSonnet, hHaiku]
  have hrates : getRates model = sonnetRates := by
    simp [getRates, hfam, PRICING]
  refine ⟨hfam, hrates, fun usage ctx => ?_⟩
  simp [calculateCost, hrates, getRates_sonnet_literal]

/-- Witness for C8: the model id `"mystery-model-9"` matches no family and
resolves to the sonnet rates. -/
theorem claim_C8_witness :
    resolveModelFamily "mystery-model-9" = "sonnet"
    ∧ getRates "mystery-model-9" = sonnetRates
    ∧ ∀ (usage : TokenUsage) (ctx : BillingContext),
        calculateCost "mystery-model-9" usage ctx = calculateCost "sonnet" usage ctx :=
  claim_C8 "mystery-model-9" (by decide) (by decide) (by decide)

-- -----------------------------------------------------------------------------
-- C9
-- -----------------------------------------------------------------------------

/-- C9: the six numeric fields of `calculateCost` do not depend on the billing
context; only `isEquivalent` does, and it is true exactly for the three
subscription tiers (every context other than pay-per-token `api`). -/
theorem claim_C9 (model : String) (usage : TokenUsage) (ctx1 ctx2 : BillingContext) :
    (calculateCost model usage ctx1).inputCost = (calculateCost model usage ctx2).inputCost
    ∧ (calculateCost model usage ctx1).outputCost = (calculateCost model usage ctx2).outputCost
    ∧ (calculateCost model usage ctx1).cacheWriteCost
        = (calculateCost model usage ctx2).cacheWriteCost
    ∧ (calculateCost model usage ctx1).cacheReadCost
        = (calculateCost model usage ctx2).cacheReadCost
    ∧ (calculateCost model usage ctx1).totalCost = (calculateCost model usage ctx2).totalCost
    ∧ (calculateCost model usage ctx1).cacheSavings
        = (calculateCost model usage ctx2).cacheSavings
    ∧ ((calculateCost model usage ctx1).isEquivalent = true ↔ ctx1 ≠ BillingContext.api) := by
  refine ⟨rfl, rfl, rfl, rfl, rfl, rfl, ?_⟩
  cases ctx1 <;> simp [calculateCost, isSubscription]

-- -----------------------------------------------------------------------------
-- C6
-- -----------------------------------------------------------------------------

/-- C6: `detectBillingContext` follows the fixed priority order — a valid
explicit override wins; otherwise a (truthy) `ANTHROPIC_API_KEY` selects
pay-per-token regardless of stored credentials; otherwise the stored
credential record's markers decide (any matching marker yields one of the
three subscription tiers, no matching marker yields pay-per-token); and a
missing, unreadable or malformed credential record falls through to
pay-per-token, no error being raised (the function is total). -/
theorem claim_C6 :
    (∀ (env : Env) (o : String) (ctx : BillingContext),
        env.override = some o → parseBillingContext o = some ctx →
        detectBillingContext env = ctx)
    ∧ (∀ env : Env, env.override.bind parseBillingContext = none →
        jsTruthy env.apiKey = true → detectBillingContext env = .api)
    ∧ (∀ (env : Env) (oauth : OAuthCreds),
        env.override.bind parseBillingContext = none → jsTruthy env.apiKey = false →
        env.credentials = .parsed (some oauth) →
        detectBillingContext env = resolveCredTier oauth)
    ∧ (∀ oauth : OAuthCreds,
        (oauth.subscriptionType = some "max"
          ∨ oauth.subscriptionType = some "pro"
          ∨ strIncludes (jsOrString oauth.rateLimitTier "") "max_20x" = true
          ∨ strIncludes (jsOrString oauth.rateLimitTier "") "max_5x" = true
          ∨ strIncludes (jsOrString oauth.rateLimitTier "") "pro" = true) →
        isSubscription (resolveCredTier oauth) = true)
    ∧ (∀ oauth : OAuthCreds,
        oauth.subscriptionType ≠ some "max" → oauth.subscriptionType ≠ some "pro" →
        strIncludes (jsOrString oauth.rateLimitTier "") "max_20x" = false →
        strIncludes (jsOrString oauth.rateLimitTier "") "max_5x" = false →
        strIncludes (jsOrString oauth.rateLimitTier "") "pro" = false →
        resolveCredTier oauth = .api)
    ∧ (∀ env : Env, env.override.bind parseBillingContext = none →
        jsTruthy env.apiKey = false →
        (env.credentials = .missing ∨ env.credentials = .malformed
          ∨ env.credentials = .parsed none) →
        detectBillingContext env = .api) := by
  refine ⟨?_, ?_, ?_, ?_, ?_, ?_⟩
  · intro env o ctx ho hp
    simp [detectBillingContext, ho, hp]
  · intro env hov hk
    simp [detectBillingContext, hov, hk]
  · intro env oauth hov hk hc
    simp [detectBillingContext, hov, hk, hc]
  · intro oauth h
    unfold resolveCredTier
    rcases h with h | h | h | h | h <;> simp only [h] <;>
      split_ifs <;> simp_all [isSubscription]
  · intro oauth h1 h2 h3 h4 h5
    simp [resolveCredTier, h1, h2, h3, h4, h5]
  · intro env hov hk hc
    rcases hc with hc | hc | hc <;> simp [detectBillingContext, hov, hk, hc]

/-- Witness for C6 (Scenario D): no override, no external API key, and no
credential file yield pay-per-token billing. -/
theorem claim_C6_witness :
    detectBillingContext ⟨none, none, .missing⟩ = .api :=
  claim_C6.2.2.2.2.2 ⟨none, none, .missing⟩ rfl rfl (Or.inl rfl)

-- -----------------------------------------------------------------------------
-- C10
-- -----------------------------------------------------------------------------

/-- C10: in the credential tier mapping, `subscriptionType = 'max'` always
yields the `max_20x` tier regardless of `rateLimitTier` (in particular
through `detectBillingContext` when neither override nor API key applies),
and the `max_5x` result is reachable only when `subscriptionType` is not
`'max'` and the rate-limit tier contains `'max_5x'`. -/
theorem claim_C10 :
    (∀ oauth : OAuthCreds, oauth.subscriptionType = some "max" →
        resolveCredTier oauth = .max_20x)
    ∧ (∀ oauth : OAuthCreds, resolveCredTier oauth = .max_5x →
        oauth.subscriptionType ≠ some "max"
        ∧ strIncludes (jsOrString oauth.rateLimitTier "") "max_5x" = true)
    ∧ (∀ (env : Env) (oauth : OAuthCreds),
        env.override.bind parseBillingContext = none → jsTruthy env.apiKey = false →
        env.credentials = .parsed (some oauth) → oauth.subscriptionType = some "max" →
        detectBillingContext env = .max_20x) := by
  refine ⟨?_, ?_, ?_⟩
  · intro oauth h
    simp [resolveCredTier, h]
  · intro oauth h
    simp only [resolveCredTier] at h
    split_ifs at h with h1 h2 h3
    push_neg at h1
    exact ⟨h1.1, by simpa [h1.1] using h2⟩
  · intro env oauth hov hk hc hs
    have h1 : detectBillingContext env = resolveCredTier oauth := by
      simp [detectBillingContext, hov, hk, hc]
    rw [h1]
    simp [resolveCredTier, hs]

/-- Witness for C10: a credential record with `subscriptionType = 'max'` and
`rateLimitTier` containing `'max_5x'` still maps to `max_20x`. -/
theorem claim_C10_witness :
    resolveCredTier ⟨some "max", some "default_max_5x"⟩ = .max_20x :=
  claim_C10.1 ⟨some "max", some "default_max_5x"⟩ rfl

-- -----------------------------------------------------------------------------
-- Reconstructor lemmas
-- -----------------------------------------------------------------------------

theorem userUpdate_queries (st : ExtractState) (e : JournalEntry) :
    (userUpdate st e).queries = st.queries := by
  unfold userUpdate
  repeat' split
  all_goals rfl

theorem userUpdate_cumulative (st : ExtractState) (e : JournalEntry) :
    (userUpdate st e).cumulativeCost = st.cumulativeCost := by
  unfold userUpdate
  repeat' split
  all_goals rfl

theorem assistantUpdate_pendingText (ctx : BillingContext) (st : ExtractState)
    (e : JournalEntry) : (assistantUpdate ctx st e).pendingText = st.pendingText := by
  unfold assistantUpdate
  dsimp only
  repeat' split
  all_goals rfl

theorem assistantUpdate_pendingTimestamp (ctx : BillingContext) (st : ExtractState)
    (e : JournalEntry) :
    (assistantUpdate ctx st e).pendingTimestamp = st.pendingTimestamp := by
  unfold assistantUpdate
  dsimp only
  repeat' split
  all_goals rfl

theorem assistantUpdate_spec (ctx : BillingContext) (st : ExtractState) (e : JournalEntry) :
    assistantUpdate ctx st e = st ∨
    ∃ q : Query,
      q.cumulativeCost = st.cumulativeCost + q.costUSD
      ∧ 0 ≤ q.costUSD
      ∧ q.model ≠ "<synthetic>"
      ∧ q.totalTokens = q.inputTokens + q.outputTokens
      ∧ assistantUpdate ctx st e =
          { st with cumulativeCost := st.cumulativeCost + q.costUSD,
                    queries := st.queries ++ [q] } := by
  rcases hm : e.message with _ | msg
  · left
    unfold assistantUpdate
    rw [hm]
  · rcases hu : msg.usage with _ | usage
    · left
      unfold assistantUpdate
      rw [hm]
      dsimp only
      rw [hu]
    · by_cases hsyn : jsOrString msg.model "unknown" = "<synthetic>"
      · left
        unfold assistantUpdate
        rw [hm]
        dsimp only
        rw [hu]
        dsimp only
        rw [if_pos hsyn]
      · right
        refine ⟨{ userPrompt := jsStrOrNull (st.pendingText.getD none)
                  userTimestamp := st.pendingTimestamp.getD none
                  assistantTimestamp := e.timestamp
                  model := jsOrString msg.model "unknown"
                  inputTokens := usage.input_tokens.getD 0
                    + usage.cache_creation_input_tokens.getD 0
                    + usage.cache_read_input_tokens.getD 0
                  outputTokens := usage.output_tokens.getD 0
                  cacheCreationTokens := usage.cache_creation_input_tokens.getD 0
                  cacheReadTokens := usage.cache_read_input_tokens.getD 0
                  totalTokens := (usage.input_tokens.getD 0
                    + usage.cache_creation_input_tokens.getD 0
                    + usage.cache_read_input_tokens.getD 0) + usage.output_tokens.getD 0
                  costUSD := (calculateCost (jsOrString msg.model "unknown")
                    (usageOf usage) ctx).totalCost
                  cacheSavings := (calculateCost (jsOrString msg.model "unknown")
                    (usageOf usage) ctx).cacheSavings
                  cumulativeCost := st.cumulativeCost
                    + (calculateCost (jsOrString msg.model "unknown")
                        (usageOf usage) ctx).totalCost
                  tools := collectTools msg.content },
                rfl,
                calculateCost_totalCost_nonneg (jsOrString msg.model "unknown")
                  (usageOf usage) ctx,
                hsyn, rfl, ?_⟩
        unfold assistantUpdate
        rw [hm]
        dsimp only
        rw [hu]
        dsimp only
        rw [if_neg hsyn]
        rfl

theorem runningSums_append (a : ℚ) (l : List ℚ) (c : ℚ) :
    runningSums a (l ++ [c]) = runningSums a l ++ [a + l.sum + c] := by
  induction l generalizing a with
  | nil => simp [runningSums]
  | cons x xs ih =>
    show (a + x) :: runningSums (a + x) (xs ++ [c])
        = (a + x) :: (runningSums (a + x) xs ++ [a + (x :: xs).sum + c])
    rw [ih]
    simp [add_assoc]

theorem runningSums_le_mem (a : ℚ) (l : List ℚ) (hl : ∀ c ∈ l, 0 ≤ c) :
    ∀ x ∈ runningSums a l, a ≤ x := by
  induction l generalizing a with
  | nil => simp [runningSums]
  | cons c cs ih =>
    intro x hx
    have hc : 0 ≤ c := hl c (by simp)
    simp only [runningSums, List.mem_cons] at hx
    rcases hx with rfl | hx
    · linarith
    · have h2 := ih (a + c) (fun d hd => hl d (by simp [hd])) x hx
      linarith

theorem runningSums_pairwise (a : ℚ) (l : List ℚ) (hl : ∀ c ∈ l, 0 ≤ c) :
    (runningSums a l).Pairwise (· ≤ ·) := by
  induction l generalizing a with
  | nil => simp [runningSums]
  | cons c cs ih =>
    simp only [runningSums]
    refine List.Pairwise.cons ?_ (ih (a + c) (fun d hd => hl d (by simp [hd])))
    exact runningSums_le_mem (a + c) cs (fun d hd => hl d (by simp [hd]))

theorem runningSums_getLast (a : ℚ) (l : List ℚ) (h : l ≠ []) :
    (runningSums a l).getLast? = some (a + l.sum) := by
  induction l generalizing a with
  | nil => exact absurd rfl h
  | cons c cs ih =>
    cases cs with
    | nil => simp [runningSums]
    | cons d ds =>
      show ((a + c) :: runningSums (a + c) (d :: ds)).getLast? = some (a + (c :: d :: ds).sum)
      rw [show runningSums (a + c) (d :: ds) = ((a + c) + d) :: runningSums ((a + c) + d) ds from rfl,
        List.getLast?_cons_cons,
        show ((a + c) + d) :: runningSums ((a + c) + d) ds = runningSums (a + c) (d :: ds) from rfl,
        ih (a + c) (by simp)]
      simp [add_assoc]

theorem extractStep_inv (ctx : BillingContext) (st : ExtractState) (e : JournalEntry)
    (h : ExtractInv st) : ExtractInv (extractStep ctx st e) := by
  have hsame : ∀ st' : ExtractState,
      st'.queries = st.queries → st'.cumulativeCost = st.cumulativeCost → ExtractInv st' := by
    intro st' hq hc
    unfold ExtractInv at h ⊢
    rw [hq, hc]
    exact h
  unfold extractStep
  have h1 : ExtractInv (if e.type = "user" then userUpdate st e else st) := by
    split
    · exact hsame _ (userUpdate_queries st e) (userUpdate_cumulative st e)
    · exact h
  set st1 := if e.type = "user" then userUpdate st e else st with hst1
  clear hst1
  split
  · rcases assistantUpdate_spec ctx st1 e with heq | ⟨q, hcum, hpos, hmod, htot, heq⟩
    · rw [heq]; exact h1
    · rw [heq]
      obtain ⟨i1, i2, i3⟩ := h1
      refine ⟨?_, ?_, ?_⟩
      · simp [List.map_append, i1]
      · simp only [List.map_append, List.map_cons, List.map_nil]
        rw [runningSums_append, i2, hcum, i1]
        simp
      · intro q' hq'
        simp only [List.mem_append, List.mem_cons, List.mem_singleton] at hq'
        rcases hq' with hq' | hq'
        · exact i3 q' hq'
        · simp only [List.not_mem_nil, or_false] at hq'
          subst hq'
          exact ⟨hpos, hmod, htot⟩
  · exact h1

theorem foldl_extractStep_inv (ctx : BillingContext) (entries : List JournalEntry) :
    ∀ st : ExtractState, ExtractInv st → ExtractInv (entries.foldl (extractStep ctx) st) := by
  induction entries with
  | nil => intro st h; exact h
  | cons e es ih => intro st h; exact ih _ (extractStep_inv ctx st e h)

theorem extractSessionData_inv (entries : List JournalEntry) (ctx : BillingContext) :
    (extractSessionData entries ctx).map (fun q => q.cumulativeCost)
        = runningSums 0 ((extractSessionData entries ctx).map (fun q => q.costUSD))
    ∧ ∀ q ∈ extractSessionData entries ctx,
        0 ≤ q.costUSD ∧ q.model ≠ "<synthetic>"
        ∧ q.totalTokens = q.inputTokens + q.outputTokens := by
  have hinit : ExtractInv initialExtractState := by
    refine ⟨by simp [initialExtractState], ?_, by simp [initialExtractState]⟩
    simp [initialExtractState, runningSums]
  have h := foldl_extractStep_inv ctx entries initialExtractState hinit
  exact ⟨h.2.1, h.2.2⟩

theorem foldl_add_eq (f : Query → ℚ) (qs : List Query) (a : ℚ) :
    qs.foldl (fun acc q => acc + f q) a = a + (qs.map f).sum := by
  induction qs generalizing a with
  | nil => simp
  | cons q rest ih => simp [ih, add_assoc]

theorem sumWith_eq_sum (f : Query → ℚ) (qs : List Query) :
    sumWith f qs = (qs.map f).sum := by
  simp [sumWith, foldl_add_eq]

theorem foldl_add_eq_nat (f : Query → ℕ) (qs : List Query) (a : ℕ) :
    qs.foldl (fun acc q => acc + f q) a = a + (qs.map f).sum := by
  induction qs generalizing a with
  | nil => simp
  | cons q rest ih => simp [ih, Nat.add_assoc]

theorem sumWithNat_eq_sum (f : Query → ℕ) (qs : List Query) :
    sumWithNat f qs = (qs.map f).sum := by
  simp [sumWithNat, foldl_add_eq_nat]

theorem buildSession_spec (project sessionId : String) (entries : List JournalEntry)
    (subs : List (List JournalEntry)) (ctx : BillingContext) (s : Session)
    (hs : buildSession project sessionId entries subs ctx = some s) :
    s.queries = extractSessionData entries ctx
    ∧ s.subagentQueries = (subs.map (fun es => extractSessionData es ctx)).flatten
    ∧ s.costUSD = (s.queries.map (fun q => q.costUSD)).sum
        + (s.subagentQueries.map (fun q => q.costUSD)).sum
    ∧ s.subagentCost = (s.subagentQueries.map (fun q => q.costUSD)).sum
    ∧ s.costCurve = buildCostCurve s.queries
    ∧ s.inputTokens = (s.queries.map (fun q => q.inputTokens)).sum
    ∧ s.outputTokens = (s.queries.map (fun q => q.outputTokens)).sum
    ∧ s.totalTokens = s.inputTokens + s.outputTokens
    ∧ s.queries ≠ [] := by
  by_cases h1 : entries = []
  · unfold buildSession at hs
    rw [if_pos h1] at hs
    exact absurd hs (by simp)
  · unfold buildSession at hs
    rw [if_neg h1] at hs
    dsimp only at hs
    by_cases h2 : extractSessionData entries ctx = []
    · rw [if_pos h2] at hs
      exact absurd hs (by simp)
    · rw [if_neg h2] at hs
      obtain rfl : _ = s := by injection hs
      refine ⟨rfl, rfl, ?_, ?_, rfl, ?_, ?_, ?_, h2⟩ <;>
        simp [sumWith_eq_sum, sumWithNat_eq_sum]

theorem jsOrString_ne_synthetic (m : String) (h : m ≠ "<synthetic>") :
    jsOrString (some m) "unknown" ≠ "<synthetic>" := by
  unfold jsOrString
  dsimp only
  split_ifs with he
  · decide
  · exact h

theorem extractStep_user_eq (ctx : BillingContext) (st : ExtractState) (text : String)
    (ts : Option String)
    (hc1 : strStartsWith text "<local-command" = false)
    (hc2 : strStartsWith text "<command-name" = false) :
    extractStep ctx st (mkUserEntry text ts) =
      { st with pendingText := some (jsStrOrNull (some text)),
                pendingTimestamp := some ts } := by
  show userUpdate st (mkUserEntry text ts) = _
  unfold userUpdate
  dsimp only [mkUserEntry]
  rw [hc1, hc2]
  simp

theorem extractStep_assistant_eq (ctx : BillingContext) (st : ExtractState) (m : String)
    (u : MessageUsage) (ts : Option String) (h : m ≠ "<synthetic>") :
    extractStep ctx st (mkAssistantEntry m u ts) =
      { st with
        cumulativeCost := st.cumulativeCost
          + (calculateCost (jsOrString (some m) "unknown") (usageOf u) ctx).totalCost
        queries := st.queries ++
          [{ userPrompt := jsStrOrNull (st.pendingText.getD none)
             userTimestamp := st.pendingTimestamp.getD none
             assistantTimestamp := ts
             model := jsOrString (some m) "unknown"
             inputTokens := u.input_tokens.getD 0 + u.cache_creation_input_tokens.getD 0
               + u.cache_read_input_tokens.getD 0
             outputTokens := u.output_tokens.getD 0
             cacheCreationTokens := u.cache_creation_input_tokens.getD 0
             cacheReadTokens := u.cache_read_input_tokens.getD 0
             totalTokens := (u.input_tokens.getD 0 + u.cache_creation_input_tokens.getD 0
               + u.cache_read_input_tokens.getD 0) + u.output_tokens.getD 0
             costUSD := (calculateCost (jsOrString (some m) "unknown") (usageOf u) ctx).totalCost
             cacheSavings :=
               (calculateCost (jsOrString (some m) "unknown") (usageOf u) ctx).cacheSavings
             cumulativeCost := st.cumulativeCost
               + (calculateCost (jsOrString (some m) "unknown") (usageOf u) ctx).totalCost
             tools := [] }] } := by
  have hne : jsOrString (some m) "unknown" ≠ "<synthetic>" := jsOrString_ne_synthetic m h
  show assistantUpdate ctx st (mkAssistantEntry m u ts) = _
  unfold assistantUpdate
  dsimp only [mkAssistantEntry]
  rw [if_neg hne]
  rfl

-- -----------------------------------------------------------------------------
-- C3
-- -----------------------------------------------------------------------------

/-- C3: on the event sequence [user "fix bug", assistant X, assistant Y,
user "now add tests", assistant Z] with billable models, the reconstructor
emits exactly three queries — the first two carrying prompt "fix bug", the
third "now add tests" — and the third query's cumulative cost is
cost(X) + cost(Y) + cost(Z); in general an assistant event never clears the
pending prompt and a qualifying user event overwrites it. -/
theorem claim_C3 (m1 m2 m3 : String) (X Y Z : MessageUsage) (ctx : BillingContext)
    (h1 : m1 ≠ "<synthetic>") (h2 : m2 ≠ "<synthetic>") (h3 : m3 ≠ "<synthetic>") :
    ((extractSessionData
        [mkUserEntry "fix bug" (some "t0"), mkAssistantEntry m1 X (some "t1"),
         mkAssistantEntry m2 Y (some "t2"), mkUserEntry "now add tests" (some "t3"),
         mkAssistantEntry m3 Z (some "t4")] ctx).map (fun q => q.userPrompt)
      = [some "fix bug", some "fix bug", some "now add tests"])
    ∧ ((extractSessionData
        [mkUserEntry "fix bug" (some "t0"), mkAssistantEntry m1 X (some "t1"),
         mkAssistantEntry m2 Y (some "t2"), mkUserEntry "now add tests" (some "t3"),
         mkAssistantEntry m3 Z (some "t4")] ctx).map (fun q => q.cumulativeCost)
      = [(calculateCost (jsOrString (some m1) "unknown") (usageOf X) ctx).totalCost,
         (calculateCost (jsOrString (some m1) "unknown") (usageOf X) ctx).totalCost
           + (calculateCost (jsOrString (some m2) "unknown") (usageOf Y) ctx).totalCost,
         (calculateCost (jsOrString (some m1) "unknown") (usageOf X) ctx).totalCost
           + (calculateCost (jsOrString (some m2) "unknown") (usageOf Y) ctx).totalCost
           + (calculateCost (jsOrString (some m3) "unknown") (usageOf Z) ctx).totalCost])
    ∧ (∀ (ctx2 : BillingContext) (st : ExtractState) (e : JournalEntry),
        (assistantUpdate ctx2 st e).pendingText = st.pendingText
        ∧ (assistantUpdate ctx2 st e).pendingTimestamp = st.pendingTimestamp)
    ∧ (∀ (ctx2 : BillingContext) (st : ExtractState) (text : String) (ts : Option String),
        strStartsWith text "<local-command" = false →
        strStartsWith text "<command-name" = false →
        (extractStep ctx2 st (mkUserEntry text ts)).pendingText
          = some (jsStrOrNull (some text))) := by
  refine ⟨?_, ?_,
    fun ctx2 st e => ⟨assistantUpdate_pendingText ctx2 st e,
      assistantUpdate_pendingTimestamp ctx2 st e⟩,
    fun ctx2 st text ts hc1 hc2 => by rw [extractStep_user_eq ctx2 st text ts hc1 hc2]⟩ <;>
  · unfold extractSessionData
    rw [List.foldl_cons, extractStep_user_eq ctx _ _ _ (by decide) (by decide),
      List.foldl_cons, extractStep_assistant_eq ctx _ _ _ _ h1,
      List.foldl_cons, extractStep_assistant_eq ctx _ _ _ _ h2,
      List.foldl_cons, extractStep_user_eq ctx _ _ _ (by decide) (by decide),
      List.foldl_cons, extractStep_assistant_eq ctx _ _ _ _ h3,
      List.foldl_nil]
    simp [jsStrOrNull, initialExtractState, add_assoc]

/-- Witness for C3: concrete billable sonnet models with 1000 output tokens
each. -/
theorem claim_C3_witness :
    (extractSessionData
        [mkUserEntry "fix bug" (some "t0"),
         mkAssistantEntry "claude-sonnet-4" usageW (some "t1"),
         mkAssistantEntry "claude-sonnet-4" usageW (some "t2"),
         mkUserEntry "now add tests" (some "t3"),
         mkAssistantEntry "claude-sonnet-4" usageW (some "t4")] .api).map
      (fun q => q.userPrompt)
      = [some "fix bug", some "fix bug", some "now add tests"] :=
  (claim_C3 "claude-sonnet-4" "claude-sonnet-4" "claude-sonnet-4" usageW usageW usageW .api
    (by decide) (by decide) (by decide)).1

theorem getRates_claude_sonnet4 : getRates "claude-sonnet-4" = sonnetRates := rfl

theorem enum_map_comp {α β : Type} (l : List α) (f : α → β) :
    l.enum.map (fun p => f p.2) = l.map f := by
  have h1 : (fun p : ℕ × α => f p.2) = f ∘ Prod.snd := rfl
  rw [h1, ← List.map_map, show l.enum = List.enumFrom 0 l from rfl,
    List.enumFrom_map_snd]

theorem buildCostCurve_map_cum (qs : List Query) :
    (buildCostCurve qs).map (fun p => p.cumulativeCost)
      = (qs.filter (fun q => tsTruthy q.assistantTimestamp)).map
          (fun q => q.cumulativeCost) := by
  unfold buildCostCurve
  rw [List.map_map]
  have h : ((fun p : CostCurvePoint => p.cumulativeCost) ∘
      (fun p : ℕ × Query =>
        CostCurvePoint.mk p.1 (p.2.assistantTimestamp.getD "") p.2.cumulativeCost))
      = fun p : ℕ × Query => p.2.cumulativeCost := rfl
  rw [h]
  exact enum_map_comp (qs.filter (fun q => tsTruthy q.assistantTimestamp))
    (fun q : Query => q.cumulativeCost)

theorem filter_getLast_eq {α : Type} (l : List α) (p : α → Bool) (x : α)
    (hx : l.getLast? = some x) (hpx : p x = true) :
    (l.filter p).getLast? = some x := by
  have h1 : l.reverse.head? = some x := by rw [List.head?_reverse]; exact hx
  obtain ⟨t, ht⟩ : ∃ t, l.reverse = x :: t := by
    cases hrev : l.reverse with
    | nil => rw [hrev] at h1; exact absurd h1 (by simp)
    | cons y ys =>
      rw [hrev] at h1
      simp only [List.head?_cons, Option.some.injEq] at h1
      exact ⟨ys, by rw [h1]⟩
  rw [← List.head?_reverse, ← List.filter_reverse, ht]
  simp [List.filter_cons, hpx]

theorem jsOr_cs4 : jsOrString (some "claude-sonnet-4") "unknown" = "claude-sonnet-4" := by
  decide

theorem costW_eval :
    (calculateCost "claude-sonnet-4" ⟨0, 1000, 0, 0⟩ BillingContext.api).totalCost
      = 3/200 := by
  simp [calculateCost, getRates_claude_sonnet4, sonnetRates]
  norm_num

theorem savingsW_eval :
    (calculateCost "claude-sonnet-4" ⟨0, 1000, 0, 0⟩ BillingContext.api).cacheSavings
      = 0 := by
  simp [calculateCost, getRates_claude_sonnet4, sonnetRates]

theorem extractCEx_eval :
    extractSessionData [entryTsA, entryNoTs] BillingContext.api
      = [queryCEx1, queryCEx2] := by
  unfold extractSessionData entryTsA entryNoTs
  rw [List.foldl_cons, extractStep_assistant_eq _ _ _ _ _ (by decide),
    List.foldl_cons, extractStep_assistant_eq _ _ _ _ _ (by decide),
    List.foldl_nil]
  dsimp only
  norm_num [initialExtractState, jsStrOrNull, jsOr_cs4, usageOf, usageW,
    queryCEx1, queryCEx2, costW_eval, savingsW_eval]

theorem buildSessionCEx_eval :
    buildSession "proj" "sid" [entryTsA, entryNoTs] [] BillingContext.api
      = some sessionCEx := by
  unfold buildSession
  rw [if_neg (by decide)]
  dsimp only
  rw [extractCEx_eval, if_neg (by decide)]
  simp [sessionCEx, sumWith, sumWithNat, buildCostCurve, tsTruthy,
    queryCEx1, queryCEx2, List.enum]
  norm_num

-- -----------------------------------------------------------------------------
-- C4
-- -----------------------------------------------------------------------------

/-- C4 (amended): for every built session the cost-curve cumulative values are
non-decreasing in event order, and — provided the session's last query has a
truthy assistant timestamp (the curve keeps only timestamped queries) — the
final curve value equals the sum of the session's own (non-subagent) query
costs. -/
theorem claim_C4 (project sessionId : String) (entries : List JournalEntry)
    (subs : List (List JournalEntry)) (ctx : BillingContext) (s : Session)
    (hs : buildSession project sessionId entries subs ctx = some s) :
    ((s.costCurve.map (fun p => p.cumulativeCost)).Pairwise (· ≤ ·))
    ∧ ((∀ q : Query, s.queries.getLast? = some q → tsTruthy q.assistantTimestamp = true) →
        (s.costCurve.map (fun p => p.cumulativeCost)).getLast?
          = some ((s.queries.map (fun q => q.costUSD)).sum)) := by
  obtain ⟨hq, -, -, -, hcurve, -, -, -, hne⟩ := buildSession_spec _ _ _ _ _ _ hs
  obtain ⟨hinv1, hinv2⟩ := extractSessionData_inv entries ctx
  rw [← hq] at hinv1 hinv2
  have hnn : ∀ c ∈ s.queries.map (fun q => q.costUSD), 0 ≤ c := by
    intro c hc
    obtain ⟨q, hqm, rfl⟩ := List.mem_map.mp hc
    exact (hinv2 q hqm).1
  have hmapcurve :
      s.costCurve.map (fun p => p.cumulativeCost)
        = (s.queries.filter (fun q => tsTruthy q.assistantTimestamp)).map
            (fun q => q.cumulativeCost) := by
    rw [hcurve, buildCostCurve_map_cum]
  constructor
  · rw [hmapcurve]
    have hpair : (s.queries.map (fun q => q.cumulativeCost)).Pairwise (· ≤ ·) := by
      rw [hinv1]
      exact runningSums_pairwise 0 _ hnn
    exact hpair.sublist ((List.filter_sublist _).map _)
  · intro hlast
    obtain ⟨qlast, hql⟩ : ∃ q, s.queries.getLast? = some q :=
      Option.isSome_iff_exists.mp (List.getLast?_isSome.mpr hne)
    have hp := hlast qlast hql
    have hsum : qlast.cumulativeCost = (s.queries.map (fun q => q.costUSD)).sum := by
      have hlastmap : (s.queries.map (fun q => q.cumulativeCost)).getLast?
          = some qlast.cumulativeCost := by
        rw [List.getLast?_map, hql]
        rfl
      rw [hinv1] at hlastmap
      have hnonnil : s.queries.map (fun q => q.costUSD) ≠ [] := by
        simpa using hne
      rw [runningSums_getLast 0 _ hnonnil] at hlastmap
      have hinj := Option.some.inj hlastmap
      linarith [hinj]
    rw [hmapcurve, List.getLast?_map, filter_getLast_eq _ _ qlast hql hp]
    simp [hsum]

/-- Witness for C4: a session from two timestamped assistant entries, where
the curve's final value is the full own-cost sum. -/
theorem claim_C4_witness :
    ((sessionTwoTs.costCurve.map (fun p => p.cumulativeCost)).Pairwise (· ≤ ·))
    ∧ ((∀ q : Query, sessionTwoTs.queries.getLast? = some q →
          tsTruthy q.assistantTimestamp = true) →
        (sessionTwoTs.costCurve.map (fun p => p.cumulativeCost)).getLast?
          = some ((sessionTwoTs.queries.map (fun q => q.costUSD)).sum)) :=
  claim_C4 "proj" "sid" [entryTsA, entryTsA] [] .api sessionTwoTs rfl

/-- Counterexample for C4 as stated: in the session built from
`[entryTsA, entryNoTs]` the final cost-curve value is 3/200, but the
session's own query costs sum to 3/100 — the untimestamped final query is
excluded from the curve. -/
theorem claim_C4_counterexample :
    ((buildSession "proj" "sid" [entryTsA, entryNoTs] [] BillingContext.api).map
        (fun s => ((s.costCurve.map (fun p => p.cumulativeCost)).getLast?,
                   (s.queries.map (fun q => q.costUSD)).sum)))
      = some (some (3/200), 3/100)
    ∧ ((3 : ℚ)/200) ≠ 3/100 := by
  constructor
  · rw [buildSessionCEx_eval]
    simp [sessionCEx, queryCEx1, queryCEx2]
    norm_num
  · norm_num

-- -----------------------------------------------------------------------------
-- C5
-- -----------------------------------------------------------------------------

/-- C5: every built session's `costUSD` is the sum of its own query costs plus
the sum of its subagent query costs, and `subagentCost` is the subagent sum
alone. -/
theorem claim_C5 (project sessionId : String) (entries : List JournalEntry)
    (subs : List (List JournalEntry)) (ctx : BillingContext) (s : Session)
    (hs : buildSession project sessionId entries subs ctx = some s) :
    s.costUSD = (s.queries.map (fun q => q.costUSD)).sum
      + (s.subagentQueries.map (fun q => q.costUSD)).sum
    ∧ s.subagentCost = (s.subagentQueries.map (fun q => q.costUSD)).sum := by
  obtain ⟨-, -, h3, h4, -⟩ := buildSession_spec _ _ _ _ _ _ hs
  exact ⟨h3, h4⟩

/-- Witness for C5: the session built from one entry plus one subagent file. -/
theorem claim_C5_witness :
    sessionWithSub.costUSD = (sessionWithSub.queries.map (fun q => q.costUSD)).sum
      + (sessionWithSub.subagentQueries.map (fun q => q.costUSD)).sum
    ∧ sessionWithSub.subagentCost
      = (sessionWithSub.subagentQueries.map (fun q => q.costUSD)).sum :=
  claim_C5 "proj" "sid" [entryTsA] [[entryTsA]] .api sessionWithSub rfl

-- -----------------------------------------------------------------------------
-- Aggregation lemmas (model breakdown and grand totals)
-- -----------------------------------------------------------------------------

theorem foldl_add_eq_gen {α : Type} (f : α → ℚ) (l : List α) (a : ℚ) :
    l.foldl (fun acc x => acc + f x) a = a + (l.map f).sum := by
  induction l generalizing a with
  | nil => simp
  | cons x rest ih => simp [ih, add_assoc]

theorem foldl_add_eq_gen_nat {α : Type} (f : α → ℕ) (l : List α) (a : ℕ) :
    l.foldl (fun acc x => acc + f x) a = a + (l.map f).sum := by
  induction l generalizing a with
  | nil => simp
  | cons x rest ih => simp [ih, Nat.add_assoc]

theorem grandTotalCostUSD_eq_sum (sessions : List Session) :
    grandTotalCostUSD sessions = (sessions.map (fun s => s.costUSD)).sum := by
  unfold grandTotalCostUSD
  simp [foldl_add_eq_gen]

theorem grandTotalTokens_eq_sum (sessions : List Session) :
    grandTotalTokens sessions = (sessions.map (fun s => s.totalTokens)).sum := by
  unfold grandTotalTokens
  simp [foldl_add_eq_gen_nat]

theorem insertQuery_costSum (m : List (String × ModelBreakdown)) (q : Query) :
    ((insertQuery m q).map (fun p => p.2.costUSD)).sum
      = (m.map (fun p => p.2.costUSD)).sum + q.costUSD := by
  induction m with
  | nil => simp [insertQuery, addQueryToBreakdown, emptyBreakdown]
  | cons hd tl ih =>
    obtain ⟨k, mb⟩ := hd
    simp only [insertQuery]
    split_ifs with hk
    · simp [addQueryToBreakdown]
      ring
    · simp only [List.map_cons, List.sum_cons, ih]
      ring

theorem insertQuery_tokenSum (m : List (String × ModelBreakdown)) (q : Query) :
    ((insertQuery m q).map (fun p => p.2.totalTokens)).sum
      = (m.map (fun p => p.2.totalTokens)).sum + q.totalTokens := by
  induction m with
  | nil => simp [insertQuery, addQueryToBreakdown, emptyBreakdown]
  | cons hd tl ih =>
    obtain ⟨k, mb⟩ := hd
    simp only [insertQuery]
    split_ifs with hk
    · simp [addQueryToBreakdown]
      omega
    · simp only [List.map_cons, List.sum_cons, ih]
      omega

theorem updateModelMap_costSum (m : List (String × ModelBreakdown)) (q : Query) :
    ((updateModelMap m q).map (fun p => p.2.costUSD)).sum
      = (m.map (fun p => p.2.costUSD)).sum
        + (if q.model = "<synthetic>" ∨ q.model = "unknown" then 0 else q.costUSD) := by
  unfold updateModelMap
  split_ifs with h
  · simp
  · simp [insertQuery_costSum]

theorem updateModelMap_tokenSum (m : List (String × ModelBreakdown)) (q : Query) :
    ((updateModelMap m q).map (fun p => p.2.totalTokens)).sum
      = (m.map (fun p => p.2.totalTokens)).sum
        + (if q.model = "<synthetic>" ∨ q.model = "unknown" then 0 else q.totalTokens) := by
  unfold updateModelMap
  split_ifs with h
  · simp
  · simp [insertQuery_tokenSum]

theorem foldQueries_costSum (qs : List Query) (m : List (String × ModelBreakdown)) :
    ((qs.foldl updateModelMap m).map (fun p => p.2.costUSD)).sum
      = (m.map (fun p => p.2.costUSD)).sum
        + ((qs.map (fun q => if q.model = "<synthetic>" ∨ q.model = "unknown"
            then 0 else q.costUSD)).sum) := by
  induction qs generalizing m with
  | nil => simp
  | cons q rest ih =>
    simp only [List.foldl_cons, List.map_cons, List.sum_cons, ih, updateModelMap_costSum]
    ring

theorem foldQueries_tokenSum (qs : List Query) (m : List (String × ModelBreakdown)) :
    ((qs.foldl updateModelMap m).map (fun p => p.2.totalTokens)).sum
      = (m.map (fun p => p.2.totalTokens)).sum
        + ((qs.map (fun q => if q.model = "<synthetic>" ∨ q.model = "unknown"
            then 0 else q.totalTokens)).sum) := by
  induction qs generalizing m with
  | nil => simp
  | cons q rest ih =>
    simp only [List.foldl_cons, List.map_cons, List.sum_cons, ih, updateModelMap_tokenSum]
    omega

theorem modelFold_costSum (ss : List Session) (m : List (String × ModelBreakdown)) :
    ((ss.foldl (fun acc s => s.queries.foldl updateModelMap acc) m).map
        (fun p => p.2.costUSD)).sum
      = (m.map (fun p => p.2.costUSD)).sum
        + ((ss.map (fun s => ((s.queries.map
            (fun q => if q.model = "<synthetic>" ∨ q.model = "unknown"
              then 0 else q.costUSD)).sum))).sum) := by
  induction ss generalizing m with
  | nil => simp
  | cons s rest ih =>
    simp only [List.foldl_cons, List.map_cons, List.sum_cons, ih, foldQueries_costSum]
    ring

theorem modelFold_tokenSum (ss : List Session) (m : List (String × ModelBreakdown)) :
    ((ss.foldl (fun acc s => s.queries.foldl updateModelMap acc) m).map
        (fun p => p.2.totalTokens)).sum
      = (m.map (fun p => p.2.totalTokens)).sum
        + ((ss.map (fun s => ((s.queries.map
            (fun q => if q.model = "<synthetic>" ∨ q.model = "unknown"
              then 0 else q.totalTokens)).sum))).sum) := by
  induction ss generalizing m with
  | nil => simp
  | cons s rest ih =>
    simp only [List.foldl_cons, List.map_cons, List.sum_cons, ih, foldQueries_tokenSum]
    omega

theorem breakdownCostSum_eq (sessions : List Session) :
    breakdownCostSum (modelBreakdownOf sessions)
      = ((sessions.map (fun s => ((s.queries.map
          (fun q => if q.model = "<synthetic>" ∨ q.model = "unknown"
            then 0 else q.costUSD)).sum))).sum) := by
  unfold breakdownCostSum modelBreakdownOf modelMapOf
  rw [List.map_map]
  have h := modelFold_costSum sessions []
  simpa using h

theorem breakdownTokenSum_eq (sessions : List Session) :
    breakdownTokenSum (modelBreakdownOf sessions)
      = ((sessions.map (fun s => ((s.queries.map
          (fun q => if q.model = "<synthetic>" ∨ q.model = "unknown"
            then 0 else q.totalTokens)).sum))).sum) := by
  unfold breakdownTokenSum modelBreakdownOf modelMapOf
  rw [List.map_map]
  have h := modelFold_tokenSum sessions []
  simpa using h

theorem sum_map_add_nat {α : Type} (l : List α) (f g : α → ℕ) :
    (l.map (fun x => f x + g x)).sum = (l.map f).sum + (l.map g).sum := by
  induction l with
  | nil => simp
  | cons x rest ih => simp [ih]; omega

theorem buildBatch_mem_spec (inputs : List SessionInput) (ctx : BillingContext)
    (s : Session) (hs : s ∈ buildBatch inputs ctx) :
    (∀ q ∈ s.queries, q.model ≠ "<synthetic>"
        ∧ q.totalTokens = q.inputTokens + q.outputTokens)
    ∧ s.costUSD = (s.queries.map (fun q => q.costUSD)).sum
        + (s.subagentQueries.map (fun q => q.costUSD)).sum
    ∧ s.totalTokens = (s.queries.map (fun q => q.inputTokens)).sum
        + (s.queries.map (fun q => q.outputTokens)).sum := by
  obtain ⟨i, hi, hbs⟩ := List.mem_filterMap.mp hs
  obtain ⟨hq, -, h3, -, -, h6, h7, h8, -⟩ := buildSession_spec _ _ _ _ _ _ hbs
  obtain ⟨-, hinv⟩ := extractSessionData_inv i.entries ctx
  rw [← hq] at hinv
  exact ⟨fun q hqm => ⟨(hinv q hqm).2.1, (hinv q hqm).2.2⟩, h3, by rw [h8, h6, h7]⟩

-- -----------------------------------------------------------------------------
-- C2
-- -----------------------------------------------------------------------------

/-- C2 (amended): the model-breakdown totals re-partition only the own-session
queries with a known model; they equal the grand totals provided no session
has subagent queries (subagent costs enter session `costUSD` and hence the
grand total, but never the model map) and no query carries the fallback model
id `"unknown"` (such queries are excluded from the model map). -/
theorem claim_C2 (inputs : List SessionInput) (ctx : BillingContext)
    (hsub : ∀ s ∈ buildBatch inputs ctx, s.subagentQueries = [])
    (hunk : ∀ s ∈ buildBatch inputs ctx, ∀ q ∈ s.queries, q.model ≠ "unknown") :
    breakdownCostSum (modelBreakdownOf (buildBatch inputs ctx))
      = grandTotalCostUSD (buildBatch inputs ctx)
    ∧ breakdownTokenSum (modelBreakdownOf (buildBatch inputs ctx))
      = grandTotalTokens (buildBatch inputs ctx) := by
  constructor
  · rw [breakdownCostSum_eq, grandTotalCostUSD_eq_sum]
    apply congrArg List.sum
    apply List.map_congr_left
    intro s hsm
    obtain ⟨hinv, hcost, -⟩ := buildBatch_mem_spec inputs ctx s hsm
    rw [hcost, hsub s hsm]
    simp only [List.map_nil, List.sum_nil, add_zero]
    apply congrArg List.sum
    apply List.map_congr_left
    intro q hq
    exact if_neg (not_or.mpr ⟨(hinv q hq).1, hunk s hsm q hq⟩)
  · rw [breakdownTokenSum_eq, grandTotalTokens_eq_sum]
    apply congrArg List.sum
    apply List.map_congr_left
    intro s hsm
    obtain ⟨hinv, -, htok⟩ := buildBatch_mem_spec inputs ctx s hsm
    rw [htok, ← sum_map_add_nat]
    apply congrArg List.sum
    apply List.map_congr_left
    intro q hq
    rw [if_neg (not_or.mpr ⟨(hinv q hq).1, hunk s hsm q hq⟩), (hinv q hq).2]

theorem extractW_eval :
    extractSessionData [entryTsA] BillingContext.api = [queryCEx1] := by
  unfold extractSessionData entryTsA
  rw [List.foldl_cons, extractStep_assistant_eq _ _ _ _ _ (by decide), List.foldl_nil]
  dsimp only
  norm_num [initialExtractState, jsStrOrNull, jsOr_cs4, usageOf, usageW,
    queryCEx1, costW_eval, savingsW_eval]

theorem buildSessionSub_eval :
    buildSession "proj" "sid" [entryTsA] [[entryTsA]] BillingContext.api
      = some sessionSubC := by
  unfold buildSession
  rw [if_neg (by decide)]
  dsimp only
  rw [extractW_eval, if_neg (by decide)]
  simp [sessionSubC, sumWith, sumWithNat, buildCostCurve, tsTruthy,
    queryCEx1, List.enum, List.enumFrom, extractW_eval]
  norm_num

theorem buildSessionPlain_eval :
    buildSession "proj" "sid" [entryTsA] [] BillingContext.api
      = some sessionPlainC := by
  unfold buildSession
  rw [if_neg (by decide)]
  dsimp only
  rw [extractW_eval, if_neg (by decide)]
  simp [sessionPlainC, sumWith, sumWithNat, buildCostCurve, tsTruthy,
    queryCEx1, List.enum, List.enumFrom]

theorem buildBatchSub_eval :
    buildBatch [sessionInputSub] BillingContext.api = [sessionSubC] := by
  simp [buildBatch, sessionInputSub, buildSessionSub_eval]

theorem buildBatchPlain_eval :
    buildBatch [sessionInputPlain] BillingContext.api = [sessionPlainC] := by
  simp [buildBatch, sessionInputPlain, buildSessionPlain_eval]

/-- Counterexample for C2 as stated: with one subagent query of positive cost,
the model-breakdown cost total is 3/200 while the grand total is 3/100. -/
theorem claim_C2_counterexample :
    breakdownCostSum (modelBreakdownOf (buildBatch [sessionInputSub] BillingContext.api))
      = 3/200
    ∧ grandTotalCostUSD (buildBatch [sessionInputSub] BillingContext.api) = 3/100
    ∧ ((3 : ℚ)/200) ≠ 3/100 := by
  refine ⟨?_, ?_, by norm_num⟩
  · rw [buildBatchSub_eval]
    simp [breakdownCostSum, modelBreakdownOf, modelMapOf, updateModelMap,
      insertQuery, addQueryToBreakdown, emptyBreakdown, sessionSubC, queryCEx1]
  · rw [buildBatchSub_eval, grandTotalCostUSD_eq_sum]
    simp [sessionSubC]

/-- Witness for C2: a batch of one session with no subagent files and no
unknown-model queries, where breakdown totals equal grand totals. -/
theorem claim_C2_witness :
    breakdownCostSum (modelBreakdownOf (buildBatch [sessionInputPlain] BillingContext.api))
      = grandTotalCostUSD (buildBatch [sessionInputPlain] BillingContext.api)
    ∧ breakdownTokenSum (modelBreakdownOf (buildBatch [sessionInputPlain] BillingContext.api))
      = grandTotalTokens (buildBatch [sessionInputPlain] BillingContext.api) :=
  claim_C2 [sessionInputPlain] .api
    (by
      intro s hs
      rw [buildBatchPlain_eval, List.mem_singleton] at hs
      subst hs
      rfl)
    (by
      intro s hs q hq
      rw [buildBatchPlain_eval, List.mem_singleton] at hs
      subst hs
      have hq1 : q = queryCEx1 := by simpa [sessionPlainC] using hq
      subst hq1
      decide)

-- -----------------------------------------------------------------------------
-- Insight-detector lemmas (context growth)
-- -----------------------------------------------------------------------------

theorem early_avg_55 (a b : ℚ) :
    earlyWindowAvg (mkFlatSession (List.replicate 55 (fillerQuery a)
      ++ List.replicate 5 (fillerQuery b))) = a := by
  unfold earlyWindowAvg mkFlatSession
  dsimp only
  rw [show (55 : ℕ) = 5 + 50 from rfl, List.replicate_add, List.append_assoc,
    List.take_left' (by simp)]
  simp [List.map_replicate, List.sum_replicate, fillerQuery, nsmul_eq_mul]
  field_simp
  ring

theorem early_avg_46 (a b : ℚ) :
    earlyWindowAvg (mkFlatSession (List.replicate 46 (fillerQuery a)
      ++ List.replicate 5 (fillerQuery b))) = a := by
  unfold earlyWindowAvg mkFlatSession
  dsimp only
  rw [show (46 : ℕ) = 5 + 41 from rfl, List.replicate_add, List.append_assoc,
    List.take_left' (by simp)]
  simp [List.map_replicate, List.sum_replicate, fillerQuery, nsmul_eq_mul]
  field_simp
  ring

theorem late_avg_55 (a b : ℚ) :
    lateWindowAvg (mkFlatSession (List.replicate 55 (fillerQuery a)
      ++ List.replicate 5 (fillerQuery b))) = b := by
  unfold lateWindowAvg mkFlatSession
  dsimp only
  rw [show (List.replicate 55 (fillerQuery a) ++ List.replicate 5 (fillerQuery b)).length - 5
      = (List.replicate 55 (fillerQuery a)).length by simp, List.drop_left]
  simp [List.map_replicate, List.sum_replicate, fillerQuery, nsmul_eq_mul]
  field_simp
  ring

theorem late_avg_46 (a b : ℚ) :
    lateWindowAvg (mkFlatSession (List.replicate 46 (fillerQuery a)
      ++ List.replicate 5 (fillerQuery b))) = b := by
  unfold lateWindowAvg mkFlatSession
  dsimp only
  rw [show (List.replicate 46 (fillerQuery a) ++ List.replicate 5 (fillerQuery b)).length - 5
      = (List.replicate 46 (fillerQuery a)).length by simp, List.drop_left]
  simp [List.map_replicate, List.sum_replicate, fillerQuery, nsmul_eq_mul]
  field_simp
  ring

theorem growthSession5x_len : growthSession5x.queries.length = 60 := by
  simp [growthSession5x, mkFlatSession]

theorem growthSessionMild_len : growthSessionMild.queries.length = 60 := by
  simp [growthSessionMild, mkFlatSession]

theorem growthSessionTiny_len : growthSessionTiny.queries.length = 51 := by
  simp [growthSessionTiny, mkFlatSession]

theorem early5x_eval : earlyWindowAvg growthSession5x = 1/100 :=
  early_avg_55 (1/100) (1/20)

theorem late5x_eval : lateWindowAvg growthSession5x = 1/20 :=
  late_avg_55 (1/100) (1/20)

theorem earlyMild_eval : earlyWindowAvg growthSessionMild = 1/100 :=
  early_avg_55 (1/100) (3/200)

theorem lateMild_eval : lateWindowAvg growthSessionMild = 3/200 :=
  late_avg_55 (1/100) (3/200)

theorem earlyTiny_eval : earlyWindowAvg growthSessionTiny = 0 :=
  early_avg_46 0 (3/20000)

theorem lateTiny_eval : lateWindowAvg growthSessionTiny = 3/20000 :=
  late_avg_46 0 (3/20000)

theorem growthRatio_5x : growthRatio growthSession5x = 5 := by
  unfold growthRatio
  rw [early5x_eval, late5x_eval, max_eq_left (by norm_num)]
  norm_num

theorem growthRatio_mild : growthRatio growthSessionMild = 3/2 := by
  unfold growthRatio
  rw [earlyMild_eval, lateMild_eval, max_eq_left (by norm_num)]
  norm_num

theorem growthRatio_tiny : growthRatio growthSessionTiny = 3/2 := by
  unfold growthRatio
  rw [earlyTiny_eval, lateTiny_eval, max_eq_right (by norm_num)]
  norm_num

-- -----------------------------------------------------------------------------
-- C7
-- -----------------------------------------------------------------------------

/-- C7 (amended): the context-growth detector fires whenever some session has
more than 50 turns and a late-window average exceeding twice the early-window
average floored at $0.0001 (the source computes
`last5 / Math.max(first5, 0.0001) > 2`); Scenario E's 60-turn session with
averages $0.01 and $0.05 (ratio 5) triggers it, and the otherwise identical
session with late average $0.015 (ratio 1.5) does not. -/
theorem claim_C7 :
    (∀ sessions : List Session,
      (∃ s ∈ sessions, 50 < s.queries.length
        ∧ 2 * max (earlyWindowAvg s) (1/10000) < lateWindowAvg s) →
      contextGrowthEmitted sessions = true)
    ∧ contextGrowthEmitted [growthSession5x] = true
    ∧ contextGrowthEmitted [growthSessionMild] = false := by
  refine ⟨?_, ?_, ?_⟩
  · rintro sessions ⟨s, hmem, hlen, hratio⟩
    have hpos : (0 : ℚ) < max (earlyWindowAvg s) (1/10000) :=
      lt_of_lt_of_le (by norm_num) (le_max_right _ _)
    have hratio2 : 2 < growthRatio s := by
      unfold growthRatio
      rw [lt_div_iff₀ hpos]
      linarith
    have hs : s ∈ (sessions.filter (fun t => 50 < t.queries.length)).filter
        (fun t => decide (2 < growthRatio t)) := by
      simp only [List.mem_filter, decide_eq_true_eq]
      exact ⟨⟨hmem, by simpa using hlen⟩, hratio2⟩
    have hne := List.ne_nil_of_mem hs
    unfold contextGrowthEmitted
    simpa [List.isEmpty_iff] using hne
  · have h1 : decide ((2:ℚ) < growthRatio growthSession5x) = true := by
      rw [growthRatio_5x, decide_eq_true_eq]
      norm_num
    unfold contextGrowthEmitted
    simp [List.filter, growthSession5x_len, h1]
  · have h1 : decide ((2:ℚ) < growthRatio growthSessionMild) = false := by
      rw [growthRatio_mild]
      rw [decide_eq_false_iff_not]
      norm_num
    unfold contextGrowthEmitted
    simp [List.filter, growthSessionMild_len, h1]

/-- Witness for C7: the amended general statement applied to the Scenario E
session population. -/
theorem claim_C7_witness : contextGrowthEmitted [growthSession5x] = true :=
  claim_C7.1 [growthSession5x]
    ⟨growthSession5x, by simp,
      by rw [growthSession5x_len]; norm_num,
      by rw [early5x_eval, late5x_eval, max_eq_left (by norm_num)]; norm_num⟩

/-- Counterexample for C7 as stated: a 51-turn session whose late-window
average (0.00015) exceeds twice its early-window average (0), yet the
detector's floored ratio is only 1.5, so no insight is emitted. -/
theorem claim_C7_counterexample :
    (50 < growthSessionTiny.queries.length
      ∧ 2 * earlyWindowAvg growthSessionTiny < lateWindowAvg growthSessionTiny)
    ∧ contextGrowthEmitted [growthSessionTiny] = false := by
  refine ⟨⟨?_, ?_⟩, ?_⟩
  · rw [growthSessionTiny_len]
    norm_num
  · rw [earlyTiny_eval, lateTiny_eval]
    norm_num
  · have h1 : decide ((2:ℚ) < growthRatio growthSessionTiny) = false := by
      rw [growthRatio_tiny]
      rw [decide_eq_false_iff_not]
      norm_num
    unfold contextGrowthEmitted
    simp [List.filter, growthSessionTiny_len, h1]

end ClaudeSpend
